import Mathlib

/-!
Verification development for the WorldTies map application.

The definitions below are a shallow embedding of the TypeScript source:
  - `src/utils/ColorScale.ts` (relationship color scale),
  - `src/utils/Format_country_name.ts` (country-code resolution, two
    historical versions of `getCountryCode`),
  - the Redux `uiSlice` (selection / rotation state and its reducers),
  - `src/components/MapChart.tsx` (live renderer: style effect, arc
    effect, projection memo, drag behavior),
  - `src/components/ExportControls.tsx` (`createFullMapSvgString`).

Numbers are modelled as exact rationals (JavaScript floats are exact on
all the constants and control points involved here); colors are modelled
as hex strings or exact RGB triples; JavaScript exceptions are modelled
with `Except`; `null`/`undefined` are modelled with `Option`.
-/

namespace WorldTies

/-! ## Basic JS-value modelling -/

/-- JavaScript string truthiness for a `string | null | undefined` value:
truthy exactly when present and non-empty. -/
def jsStrTruthy : Option String → Bool
  | some s => !s.isEmpty
  | none => false

/-- JavaScript property access on a possibly-`undefined` string, as used
in an expression position where `undefined` makes the dereference throw a
`TypeError` (e.g. `props.name.replace(...)`). -/
def jsGetString : Option String → Except String String
  | some s => Except.ok s
  | none => Except.error "TypeError"

/-- The sanitation `name.replace(/\s+/g, '')`: remove all whitespace. -/
def stripWhitespace (s : String) : String :=
  String.mk (s.data.filter (fun c => !c.isWhitespace))

/-- The JavaScript `String.prototype.toUpperCase()` on the ASCII strings
used by the code. -/
def jsToUpperCase (s : String) : String :=
  String.mk (s.data.map Char.toUpper)

/-! ## Data model: features, relationship data, alliances

`CountryFeatureProperties` is the properties bag declared in
`Format_country_name.ts`; `Feature` is the part of a GeoJSON feature the
core reads (the polygon geometry itself is only ever consumed through a
path generator / centroid function, which is kept as an explicit function
parameter below). -/

structure CountryFeatureProperties where
  name : Option String
  iso_a3 : Option String
  adm0_a3 : Option String
  iso_n3 : Option String
deriving DecidableEq, Repr

structure Feature where
  id : Option String
  properties : Option CountryFeatureProperties
deriving DecidableEq, Repr

/-- `{ name: string, relations: { [partnerCode: string]: number } }`. -/
structure CountryData where
  name : String
  relations : List (String × ℚ)
deriving DecidableEq, Repr

/-- `relationships.json`, keyed by country code. -/
abbrev RelationshipData := List (String × CountryData)

/-- `alliances.json`: alliance name to member country codes. -/
abbrev Alliances := List (String × List String)

/-! ## ColorScale (`src/utils/ColorScale.ts`)

`d3.scaleLinear<string>().domain([-10, 0, 10])
   .range(['#e74c3c', '#f1c40f', '#2ecc71']).clamp(true)`.

The d3 interpolator is modelled as exact piecewise-linear interpolation
of the RGB components over the rationals (the channel rounding d3 applies
when printing the color string is irrelevant to the properties proved
here, which only concern clamping and the control points). -/

/-- An RGB color with exact rational components. -/
abbrev Rgb := ℚ × ℚ × ℚ

/-- Hex `#e74c3c`, the hostile endpoint of the range. -/
def hostileEndpoint : Rgb := (231, 76, 60)

/-- Hex `#f1c40f`, the neutral middle of the range. -/
def neutralMiddle : Rgb := (241, 196, 15)

/-- Hex `#2ecc71`, the ally endpoint of the range. -/
def allyEndpoint : Rgb := (46, 204, 113)

/-- Clamping of an input score to the scale domain `[-10, 10]`
(`.clamp(true)` on the d3 scale). -/
def clampScore (s : ℚ) : ℚ := max (-10) (min 10 s)

/-- Linear interpolation between two RGB colors. -/
def lerpRgb (a b : Rgb) (t : ℚ) : Rgb :=
  (a.1 + (b.1 - a.1) * t, a.2.1 + (b.2.1 - a.2.1) * t, a.2.2 + (b.2.2 - a.2.2) * t)

/-- The relationship color scale: clamp the score to `[-10, 10]`, then
interpolate on the segment `[-10, 0]` toward `hostileEndpoint` /
`neutralMiddle` or on `[0, 10]` toward `allyEndpoint`. -/
def ColorScale (s : ℚ) : Rgb :=
  let c := clampScore s
  if c ≤ 0 then lerpRgb hostileEndpoint neutralMiddle ((c + 10) / 10)
  else lerpRgb neutralMiddle allyEndpoint (c / 10)

/-! ## CountryCodeResolver (`src/utils/Format_country_name.ts`)

The repository keeps two historical versions of `getCountryCode`. The
current one uses the external `i18n-iso-countries` library; the earlier
one uses a hand-authored numeric table. Accesses that can throw in
JavaScript are made explicit through the `Except` monad; a pure variant
of the current version (which has no unguarded access) is defined first
and is the one consumed by the renderers. -/

/-- The in-source override table `nameToCodeOverrides`. -/
def nameToCodeOverrides : List (String × String) :=
  [("Kosovo", "XKX"), ("Somaliland", "SOL"), ("N. Cyprus", "CYP-NORTH")]

/-- Modelled from the spec: the external `i18n-iso-countries`
`isValid` check ("a 3-letter ISO alpha-3 field, if syntactically valid").
The library is not part of the repository; it is modelled as membership
in a table covering the codes this development mentions. -/
def isoIsValid (s : String) : Bool :=
  ["FRA", "USA", "CAN", "CHN", "RUS", "DEU", "GBR", "IND", "PAK", "JPN",
   "UKR", "BLR", "MEX", "IDN", "NOR", "ITA", "ESP", "POL", "BRA", "AUS"].contains s

/-- Modelled from the spec: the external `i18n-iso-countries`
`numericToAlpha3` conversion ("numeric ISO code, converted via a fixed
numeric-to-alpha3 table"), modelled over the same country subset as the
in-source numeric table. -/
def isoNumericToAlpha3Lib (s : String) : Option String :=
  ([("840", "USA"), ("124", "CAN"), ("156", "CHN"), ("643", "RUS"),
    ("276", "DEU"), ("826", "GBR"), ("250", "FRA"), ("356", "IND"),
    ("586", "PAK"), ("392", "JPN"), ("804", "UKR"), ("112", "BLR"),
    ("484", "MEX"), ("360", "IDN")] : List (String × String)).lookup s

/-- Modelled from the spec: the external `i18n-iso-countries`
`getAlpha3Code(name, 'en')` fuzzy name lookup ("fallback: fuzzy name
lookup against a canonical name table"), modelled as a finite table. -/
def isoGetAlpha3Code (s : String) : Option String :=
  ([("France", "FRA"), ("Norway", "NOR"), ("Germany", "DEU"),
    ("United States of America", "USA"), ("Russia", "RUS"),
    ("United Kingdom", "GBR"), ("China", "CHN")] : List (String × String)).lookup s

/-- The current `getCountryCode` (first version in
`Format_country_name.ts`), as a pure function: override table, then
valid `iso_a3` (with the French-territory synthesis), then valid
`adm0_a3`, then numeric `iso_n3` conversion, then name lookup. -/
def getCountryCode (countryFeature : Option Feature) : Option String :=
  match countryFeature with
  | none => none
  | some f =>
    match f.properties with
    | none => none
    | some p =>
      if jsStrTruthy p.name ∧ (nameToCodeOverrides.lookup (p.name.getD "")).isSome then
        nameToCodeOverrides.lookup (p.name.getD "")
      else if jsStrTruthy p.iso_a3 ∧ isoIsValid (p.iso_a3.getD "") then
        if p.iso_a3 = some "FRA" ∧ jsStrTruthy p.name ∧ p.name ≠ some "France" then
          some (jsToUpperCase ("FRA-" ++ stripWhitespace (p.name.getD "")))
        else p.iso_a3
      else if jsStrTruthy p.adm0_a3 ∧ isoIsValid (p.adm0_a3.getD "") then
        p.adm0_a3
      else if jsStrTruthy p.iso_n3 ∧ (isoNumericToAlpha3Lib (p.iso_n3.getD "")).isSome then
        isoNumericToAlpha3Lib (p.iso_n3.getD "")
      else if jsStrTruthy p.name ∧ (isoGetAlpha3Code (p.name.getD "")).isSome then
        isoGetAlpha3Code (p.name.getD "")
      else none

/-- The current `getCountryCode` with JavaScript exception semantics made
explicit: same control flow as `getCountryCode`, each step wrapped in
`Except`. Every property access in this version is guarded, so no branch
produces an error. -/
def getCountryCodeJS (countryFeature : Option Feature) : Except String (Option String) :=
  match countryFeature with
  | none => Except.ok none
  | some f =>
    match f.properties with
    | none => Except.ok none
    | some p =>
      if jsStrTruthy p.name ∧ (nameToCodeOverrides.lookup (p.name.getD "")).isSome then
        Except.ok (nameToCodeOverrides.lookup (p.name.getD ""))
      else if jsStrTruthy p.iso_a3 ∧ isoIsValid (p.iso_a3.getD "") then
        if p.iso_a3 = some "FRA" ∧ jsStrTruthy p.name ∧ p.name ≠ some "France" then
          Except.ok (some (jsToUpperCase ("FRA-" ++ stripWhitespace (p.name.getD ""))))
        else Except.ok p.iso_a3
      else if jsStrTruthy p.adm0_a3 ∧ isoIsValid (p.adm0_a3.getD "") then
        Except.ok p.adm0_a3
      else if jsStrTruthy p.iso_n3 ∧ (isoNumericToAlpha3Lib (p.iso_n3.getD "")).isSome then
        Except.ok (isoNumericToAlpha3Lib (p.iso_n3.getD ""))
      else if jsStrTruthy p.name ∧ (isoGetAlpha3Code (p.name.getD "")).isSome then
        Except.ok (isoGetAlpha3Code (p.name.getD ""))
      else Except.ok none

/-- The in-source numeric table `isoNumericToAlpha3` of the earlier
`getCountryCode` version. -/
def isoNumericToAlpha3 (s : String) : Option String :=
  ([("840", "USA"), ("124", "CAN"), ("156", "CHN"), ("643", "RUS"),
    ("276", "DEU"), ("826", "GBR"), ("250", "FRA"), ("356", "IND"),
    ("586", "PAK"), ("392", "JPN"), ("804", "UKR"), ("112", "BLR"),
    ("484", "MEX"), ("360", "IDN")] : List (String × String)).lookup s

/-- A present string field of exactly three characters (the
`props?.x && typeof props.x === 'string' && props.x.length === 3`
check of the earlier `getCountryCode` version). -/
def strTruthyLen3 : Option String → Bool
  | some s => !s.isEmpty && s.length == 3
  | none => false

/-- The earlier `getCountryCode` (second version in
`Format_country_name.ts`), with JavaScript exception semantics: name
special cases, then 3-character `iso_a3` (whose French-territory branch
dereferences `props.name.replace` without a guard and therefore throws a
`TypeError` when `name` is absent), then 3-character `adm0_a3`, then the
in-source numeric table. -/
def getCountryCode2JS (countryFeature : Option Feature) : Except String (Option String) :=
  match countryFeature with
  | none => Except.ok none
  | some f =>
    match f.properties with
    | none => Except.ok none
    | some p =>
      if p.name = some "Kosovo" then Except.ok (some "XKX")
      else if p.name = some "Somaliland" then Except.ok (some "SOL")
      else if p.name = some "Norway" then Except.ok (some "NOR")
      else if p.name = some "France" then Except.ok (some "FRA")
      else if strTruthyLen3 p.iso_a3 then
        if p.iso_a3 = some "FRA" ∧ p.name ≠ some "France" then
          (jsGetString p.name).map (fun n =>
            some (jsToUpperCase ((p.iso_a3.getD "") ++ "-" ++ stripWhitespace n)))
        else Except.ok p.iso_a3
      else if strTruthyLen3 p.adm0_a3 then
        Except.ok p.adm0_a3
      else if jsStrTruthy p.iso_n3 ∧ (isoNumericToAlpha3 (p.iso_n3.getD "")).isSome then
        Except.ok (isoNumericToAlpha3 (p.iso_n3.getD ""))
      else Except.ok none

/-- The inputs on which the earlier version's unguarded
`props.name.replace` dereference is reached: a properties bag whose
`iso_a3` is `"FRA"` but whose `name` is absent. -/
def fraWithoutName (countryFeature : Option Feature) : Bool :=
  match countryFeature with
  | none => false
  | some f =>
    match f.properties with
    | none => false
    | some p => p.iso_a3 == some "FRA" && p.name == none

/-! ## Selection / rotation state (`src/store/slices/uiSlice.ts`) -/

inductive ProjectionType where
  | geoMercator
  | geoOrthographic
deriving DecidableEq, Repr

structure UIState where
  selectedCountry : Option Feature
  selectedAlliance : Option String
  projection : ProjectionType
  mobileMenuOpen : Bool
  searchTerm : String
  sidebarCollapsed : Bool
  mapRotation : ℚ × ℚ
deriving DecidableEq

/-- The `initialState` of the slice. -/
def uiInitialState : UIState :=
  { selectedCountry := none
    selectedAlliance := none
    projection := ProjectionType.geoMercator
    mobileMenuOpen := false
    searchTerm := ""
    sidebarCollapsed := false
    mapRotation := (20, -20) }

inductive UIAction where
  | selectCountry (payload : Option Feature)
  | selectAlliance (payload : Option String)
  | clearSelections
  | setProjection (payload : ProjectionType)
  | toggleMobileMenu
  | setMobileMenuOpen (payload : Bool)
  | resetUIState
  | setSearchTerm (payload : String)
  | toggleSidebar
  | setMapRotation (payload : ℚ × ℚ)
deriving DecidableEq

/-- The `uiSlice` reducers. `selectCountry` stores the payload and, only
when the payload is non-null, clears the alliance selection;
`selectAlliance` is symmetric; `clearSelections` clears both. -/
def uiReducer (s : UIState) : UIAction → UIState
  | UIAction.selectCountry p =>
      { s with selectedCountry := p
               selectedAlliance := if p.isSome then none else s.selectedAlliance }
  | UIAction.selectAlliance p =>
      { s with selectedAlliance := p
               selectedCountry := if p.isSome then none else s.selectedCountry }
  | UIAction.clearSelections =>
      { s with selectedCountry := none, selectedAlliance := none }
  | UIAction.setProjection p => { s with projection := p }
  | UIAction.toggleMobileMenu => { s with mobileMenuOpen := !s.mobileMenuOpen }
  | UIAction.setMobileMenuOpen p => { s with mobileMenuOpen := p }
  | UIAction.resetUIState => uiInitialState
  | UIAction.setSearchTerm p => { s with searchTerm := p }
  | UIAction.toggleSidebar => { s with sidebarCollapsed := !s.sidebarCollapsed }
  | UIAction.setMapRotation p => { s with mapRotation := p }

/-- At most one of the two selections is active. -/
def selectionMutex (s : UIState) : Prop :=
  s.selectedCountry = none ∨ s.selectedAlliance = none

/-! ## Drag-to-rotate (`MapChart.tsx`, drag behavior under
`geoOrthographic`)

One drag event with deltas `(dx, dy)` dispatches
`setMapRotation([rotation[0] + dx * k, clamp(rotation[1] - dy * k)])`
with sensitivity `k = 0.5` and latitude clamped by
`Math.max(-90, Math.min(90, _))`. -/

def dragSensitivity : ℚ := 1 / 2

/-- The rotation pair dispatched for one drag event. -/
def dragStep (rot : ℚ × ℚ) (delta : ℚ × ℚ) : ℚ × ℚ :=
  (rot.1 + delta.1 * dragSensitivity,
   max (-90) (min 90 (rot.2 - delta.2 * dragSensitivity)))

/-- Run a sequence of drag events against the store, starting from the
initial UI state. -/
def applyDrags (deltas : List (ℚ × ℚ)) : UIState :=
  deltas.foldl
    (fun s d => uiReducer s (UIAction.setMapRotation (dragStep s.mapRotation d)))
    uiInitialState

/-! ## VisualEncoder: per-feature fill / stroke / stroke-width

`MapChart.tsx` (style-update effect) and `ExportControls.tsx`
(`createFullMapSvgString`) each compute the three attributes from
`(feature, selectedId, allianceMembers, relationshipData)`. Both are
embedded separately, verbatim from their respective files. -/

/-- A computed color attribute: either a hex literal from the source or
a value of the relationship color scale. -/
inductive Color where
  | hex (s : String)
  | scale (c : Rgb)
deriving DecidableEq

/-- `selectedCountry ? getCountryCode(selectedCountry) : null`. -/
def selectedIdOf (selectedCountry : Option Feature) : Option String :=
  match selectedCountry with
  | some c => getCountryCode (some c)
  | none => none

/-- `selectedAlliance ? new Set(alliances[selectedAlliance]) : null`
(note `new Set(undefined)` is an empty — and truthy — set, so the result
is non-null exactly when an alliance is selected). -/
def allianceMembersOf (alliances : Alliances) (selectedAlliance : Option String) :
    Option (List String) :=
  selectedAlliance.map (fun a => (alliances.lookup a).getD [])

/-- `relationshipData[selectedId]?.relations || {}`. -/
def relationsOf (rd : RelationshipData) (selectedId : String) : List (String × ℚ) :=
  ((List.lookup selectedId rd).map CountryData.relations).getD []

/-- `relations[countryCode] || 0`. -/
def scoreOf (relations : List (String × ℚ)) (code : String) : ℚ :=
  (relations.lookup code).getD 0

/-- `allianceMembers && countryCode && allianceMembers.has(countryCode)`:
the alliance-member test shared by the stroke and stroke-width rules. -/
def isAllianceMember (allianceMembers : Option (List String))
    (countryCode : Option String) : Bool :=
  match allianceMembers with
  | some members => jsStrTruthy countryCode && members.contains (countryCode.getD "")
  | none => false

/-- `selectedId && countryCode === selectedId`: the selected-feature test
shared by the stroke and stroke-width rules. -/
def isSelectedFeature (selectedId countryCode : Option String) : Bool :=
  jsStrTruthy selectedId && countryCode == selectedId

/-- The `fill` attribute of the live style-update effect in
`MapChart.tsx`. -/
def liveFill (rd : RelationshipData) (selectedId : Option String)
    (allianceMembers : Option (List String)) (d : Feature) : Color :=
  let countryCode := getCountryCode (some d)
  if !jsStrTruthy countryCode then Color.hex "#4A5568"
  else
    match allianceMembers with
    | some members =>
      if members.contains (countryCode.getD "") then Color.hex "#D97706"
      else Color.hex "#4A5568"
    | none =>
      if jsStrTruthy selectedId then
        if countryCode == selectedId then Color.hex "#3b82f6"
        else
          Color.scale (ColorScale
            (scoreOf (relationsOf rd (selectedId.getD "")) (countryCode.getD "")))
      else Color.hex "#4A5568"

/-- The `stroke` attribute of the live style-update effect in
`MapChart.tsx`; the default stroke is `#1a202c`. -/
def liveStroke (selectedId : Option String)
    (allianceMembers : Option (List String)) (d : Feature) : Color :=
  let countryCode := getCountryCode (some d)
  if isSelectedFeature selectedId countryCode then Color.hex "#fde047"
  else if isAllianceMember allianceMembers countryCode then Color.hex "#FBBF24"
  else Color.hex "#1a202c"

/-- The `stroke-width` attribute of the live style-update effect in
`MapChart.tsx`. -/
def liveStrokeWidth (selectedId : Option String)
    (allianceMembers : Option (List String)) (d : Feature) : ℚ :=
  let countryCode := getCountryCode (some d)
  if isSelectedFeature selectedId countryCode then 3 / 2
  else if isAllianceMember allianceMembers countryCode then 1
  else 1 / 2

/-- The `fill` attribute in `createFullMapSvgString`
(`ExportControls.tsx`). -/
def exportFill (rd : RelationshipData) (selectedId : Option String)
    (allianceMembers : Option (List String)) (d : Feature) : Color :=
  let countryCode := getCountryCode (some d)
  if !jsStrTruthy countryCode then Color.hex "#4A5568"
  else
    match allianceMembers with
    | some members =>
      if members.contains (countryCode.getD "") then Color.hex "#D97706"
      else Color.hex "#4A5568"
    | none =>
      if jsStrTruthy selectedId then
        if countryCode == selectedId then Color.hex "#3b82f6"
        else
          Color.scale (ColorScale
            (scoreOf (relationsOf rd (selectedId.getD "")) (countryCode.getD "")))
      else Color.hex "#4A5568"

/-- The `stroke` attribute in `createFullMapSvgString`; the default
stroke is `#000` ("black stroke for better definition on export"). -/
def exportStroke (selectedId : Option String)
    (allianceMembers : Option (List String)) (d : Feature) : Color :=
  let countryCode := getCountryCode (some d)
  if isSelectedFeature selectedId countryCode then Color.hex "#fde047"
  else if isAllianceMember allianceMembers countryCode then Color.hex "#FBBF24"
  else Color.hex "#000"

/-- The `stroke-width` attribute in `createFullMapSvgString`. -/
def exportStrokeWidth (selectedId : Option String)
    (allianceMembers : Option (List String)) (d : Feature) : ℚ :=
  let countryCode := getCountryCode (some d)
  if isSelectedFeature selectedId countryCode then 3 / 2
  else if isAllianceMember allianceMembers countryCode then 1
  else 1 / 2

/-! ## ArcSelector (`MapChart.tsx`, arc effect) -/

/-- `{ source, target, score, key }` as produced by the arc effect. -/
structure ArcDataItem where
  source : ℚ × ℚ
  target : ℚ × ℚ
  score : ℚ
  key : String
deriving DecidableEq, Repr

/-- Insertion step of the comparator
`(a, b) => Math.abs(b) - Math.abs(a)`: descending absolute score. -/
def insertAbsDesc (x : String × ℚ) : List (String × ℚ) → List (String × ℚ)
  | [] => [x]
  | y :: ys => if |x.2| ≥ |y.2| then x :: y :: ys else y :: insertAbsDesc x ys

/-- `Object.entries(relations).sort(...)` by descending `|score|`. -/
def sortByAbsDesc (l : List (String × ℚ)) : List (String × ℚ) :=
  l.foldr insertAbsDesc []

/-- The optimized country lookup map of `MapChart.tsx`: every country
whose code resolves is entered under its code. -/
def buildCountryMap (countries : List Feature) : List (String × Feature) :=
  countries.filterMap (fun c => (getCountryCode (some c)).map (fun code => (code, c)))

/-- The arc computation of the arc effect: sort the selected entry's
relations by `|score|` descending, take the first 5 with positive score
and the first 5 with negative score, and resolve each partner through
the country lookup, silently dropping partners whose feature is not
found. -/
def computeArcData (pathCentroid : Feature → ℚ × ℚ)
    (countryMap : List (String × Feature)) (selectedCountry : Feature)
    (selectedId : String) (relations : List (String × ℚ)) : List ArcDataItem :=
  let sortedRelations := sortByAbsDesc relations
  let allies := (sortedRelations.filter (fun e => e.2 > 0)).take 5
  let adversaries := (sortedRelations.filter (fun e => e.2 < 0)).take 5
  let connections := allies ++ adversaries
  let sourceCentroid := pathCentroid selectedCountry
  connections.filterMap (fun e =>
    (countryMap.lookup e.1).map (fun tf =>
      { source := sourceCentroid
        target := pathCentroid tf
        score := e.2
        key := selectedId ++ "-" ++ e.1 }))

/-- Arc stroke color in the live renderer (`MapChart.tsx`): cyan for
positive scores, magenta otherwise. -/
def arcStroke (score : ℚ) : String :=
  if score > 0 then "#00FFFF" else "#FF288C"

/-- Arc stroke width in the live renderer: `1.5 + Math.abs(score) / 10`. -/
def arcStrokeWidth (score : ℚ) : ℚ := 3 / 2 + |score| / 10

/-- Arc stroke color in `createFullMapSvgString`. -/
def exportArcStroke (score : ℚ) : String :=
  if score > 0 then "#00FFFF" else "#FF288C"

/-- Arc stroke width in `createFullMapSvgString`. -/
def exportArcStrokeWidth (score : ℚ) : ℚ := 3 / 2 + |score| / 10

/-- The quadratic arc path: control point at the chord midpoint offset
by `0.3` times the perpendicular of the chord. -/
def arcPathD (source target : ℚ × ℚ) : String :=
  let dx := target.1 - source.1
  let dy := target.2 - source.2
  let midX := (source.1 + target.1) / 2
  let midY := (source.2 + target.2) / 2
  let controlX := midX + dy * (3 / 10)
  let controlY := midY - dx * (3 / 10)
  "M" ++ toString source.1 ++ "," ++ toString source.2 ++
    "Q" ++ toString controlX ++ "," ++ toString controlY ++
    "," ++ toString target.1 ++ "," ++ toString target.2

/-! ## ProjectionEngine (`MapChart.tsx`, projection / path-generator
memos) and the degenerate-viewport guard -/

/-- The projection configuration the `useMemo` builds: either the
orthographic globe (scaled to the smaller dimension minus padding,
centered, hemisphere-clipped, rotated) or the Mercator projection fitted
to the padded viewport extent. -/
inductive Projection where
  | orthographic (scale : ℚ) (translate : ℚ × ℚ) (clipAngle : ℚ) (rotate : ℚ × ℚ)
  | mercatorFit (corner0 corner1 : ℚ × ℚ) (features : List Feature)

/-- A d3 path generator: screen-space path string and centroid of a
feature. The geometric math lives in the external d3 library and is kept
as an explicit function parameter. -/
structure PathGen where
  pathOf : Feature → String
  centroid : Feature → ℚ × ℚ

/-- The projection `useMemo`: `null` for a degenerate viewport, else the
projection for the current projection family. -/
def buildProjection (width height : ℚ) (projectionName : ProjectionType)
    (rotation : ℚ × ℚ) (countries : List Feature) : Option Projection :=
  if width = 0 ∨ height = 0 then none
  else if projectionName = ProjectionType.geoOrthographic then
    some (Projection.orthographic (min width height / 2 - 20)
      (width / 2, height / 2) 90 rotation)
  else
    some (Projection.mercatorFit (20, 20) (width - 20, height - 20) countries)

/-- The path-generator `useMemo`:
`projection ? d3.geoPath().projection(projection) : null`. -/
def buildPathGenerator (geoPath : Projection → PathGen)
    (projection : Option Projection) : Option PathGen :=
  projection.map geoPath

/-- `String(d.id)` for the data-join key (JavaScript stringifies a
missing id to `"undefined"`). -/
def jsStringOfId : Option String → String
  | some s => s
  | none => "undefined"

/-- The path-creation effect: bails out (producing nothing) when the
path generator is null, and otherwise binds every feature, keyed by
`getCountryCode(d) || String(d.id)`, to its path string. -/
def pathCreationEffect (pathGenerator : Option PathGen)
    (countries : List Feature) : Option (List (String × String)) :=
  pathGenerator.map (fun g => countries.map (fun d =>
    (if jsStrTruthy (getCountryCode (some d)) then (getCountryCode (some d)).getD ""
     else jsStringOfId d.id,
     g.pathOf d)))

/-- The arc effect: with a null path generator or no selection it only
clears the arc layer (rendering no arcs); otherwise it renders the
computed arc data for the selected country's relationship entry. -/
def arcEffect (pathGenerator : Option PathGen)
    (countryMap : List (String × Feature)) (rd : RelationshipData)
    (selectedCountry : Option Feature) : List ArcDataItem :=
  match pathGenerator, selectedCountry with
  | some g, some sc =>
    match getCountryCode (some sc) with
    | some sid =>
      match List.lookup sid rd with
      | some entry => computeArcData g.centroid countryMap sc sid entry.relations
      | none => []
    | none => []
  | _, _ => []

/-! ## ExportRenderer (`ExportControls.tsx`, `createFullMapSvgString`) -/

/-- One country `<path>` element of the export scene. -/
structure SvgCountryPath where
  d : String
  stroke : Color
  strokeWidth : ℚ
  fill : Color
deriving DecidableEq

/-- One arc `<path>` element of the export scene. -/
structure SvgArc where
  d : String
  stroke : String
  strokeWidth : ℚ
deriving DecidableEq

/-- The complete export scene built in memory by
`createFullMapSvgString` before serialization. -/
structure ExportSvg where
  width : ℚ
  height : ℚ
  xmlns : String
  backgroundFill : String
  countryPaths : List SvgCountryPath
  glowFilter : Bool
  arcs : List SvgArc
deriving DecidableEq

/-- The export scene builder. Its only inputs are the data model and the
selection; the canvas is the fixed `1800 × 1000` logical size, the
projection is a Mercator fit of the whole feature collection to that
size (`mercatorFitSize`, the external d3 fit, is an explicit function
parameter), and the live view's transform/rotation are not consulted. -/
def createFullMapSvg (mercatorFitSize : ℚ → ℚ → List Feature → PathGen)
    (countries : List Feature) (rd : RelationshipData)
    (selectedCountry : Option Feature) (alliances : Alliances)
    (selectedAlliance : Option String) : ExportSvg :=
  let exportWidth : ℚ := 1800
  let exportHeight : ℚ := 1000
  let pathGenerator := mercatorFitSize exportWidth exportHeight countries
  let selectedId := selectedIdOf selectedCountry
  let allianceMembers := allianceMembersOf alliances selectedAlliance
  let drawArcs : Option (List SvgArc) :=
    match selectedCountry, selectedId with
    | some sc, some sid =>
      match List.lookup sid rd with
      | some entry =>
        let sortedRelations := sortByAbsDesc entry.relations
        let allies := (sortedRelations.filter (fun e => e.2 > 0)).take 5
        let adversaries := (sortedRelations.filter (fun e => e.2 < 0)).take 5
        let connections := allies ++ adversaries
        let sourceCentroid := pathGenerator.centroid sc
        some (connections.filterMap (fun e =>
          (countries.find? (fun c => getCountryCode (some c) == some e.1)).map
            (fun tf =>
              { d := arcPathD sourceCentroid (pathGenerator.centroid tf)
                stroke := exportArcStroke e.2
                strokeWidth := exportArcStrokeWidth e.2 })))
      | none => none
    | _, _ => none
  { width := exportWidth
    height := exportHeight
    xmlns := "http://www.w3.org/2000/svg"
    backgroundFill := "#1a202c"
    countryPaths := countries.map (fun d =>
      { d := pathGenerator.pathOf d
        stroke := exportStroke selectedId allianceMembers d
        strokeWidth := exportStrokeWidth selectedId allianceMembers d
        fill := exportFill rd selectedId allianceMembers d })
    glowFilter := drawArcs.isSome
    arcs := drawArcs.getD [] }

/-- A color attribute serialized into the SVG text. -/
def serializeColor : Color → String
  | Color.hex s => s
  | Color.scale c =>
    "rgb(" ++ toString c.1 ++ ", " ++ toString c.2.1 ++ ", " ++ toString c.2.2 ++ ")"

/-- Serialization of one country path element. -/
def serializeCountryPath (p : SvgCountryPath) : String :=
  "<path d=\"" ++ p.d ++ "\" stroke=\"" ++ serializeColor p.stroke ++
    "\" stroke-width=\"" ++ toString p.strokeWidth ++
    "\" fill=\"" ++ serializeColor p.fill ++ "\"></path>"

/-- Serialization of one arc path element. -/
def serializeArc (a : SvgArc) : String :=
  "<path d=\"" ++ a.d ++ "\" fill=\"none\" stroke=\"" ++ a.stroke ++
    "\" stroke-width=\"" ++ toString a.strokeWidth ++
    "\" stroke-linecap=\"round\" filter=\"url(#glow)\"></path>"

/-- The `XMLSerializer` step of `createFullMapSvgString`, with the XML
prolog prepended. -/
def serializeExportSvg (svg : ExportSvg) : String :=
  "<?xml version=\"1.0\" standalone=\"no\"?>\r\n" ++
    "<svg width=\"" ++ toString svg.width ++ "\" height=\"" ++ toString svg.height ++
    "\" xmlns=\"" ++ svg.xmlns ++ "\">" ++
    "<rect width=\"100%\" height=\"100%\" fill=\"" ++ svg.backgroundFill ++ "\"></rect>" ++
    (if svg.glowFilter then "<defs><filter id=\"glow\"></filter></defs>" else "") ++
    "<g>" ++ String.join (svg.countryPaths.map serializeCountryPath) ++ "</g>" ++
    String.join (svg.arcs.map serializeArc) ++
    "</svg>"

/-- The full `createFullMapSvgString`: build the scene, serialize it. -/
def createFullMapSvgString (mercatorFitSize : ℚ → ℚ → List Feature → PathGen)
    (countries : List Feature) (rd : RelationshipData)
    (selectedCountry : Option Feature) (alliances : Alliances)
    (selectedAlliance : Option String) : String :=
  serializeExportSvg
    (createFullMapSvg mercatorFitSize countries rd selectedCountry alliances
      selectedAlliance)

/-- The whole live-view state at export time, including the two pieces
the export intentionally ignores: the pan/zoom transform applied to the
map and arc layers under the flat projection, and the globe rotation. -/
structure LiveViewState where
  countries : List Feature
  relationshipData : RelationshipData
  alliances : Alliances
  selectedCountry : Option Feature
  selectedAlliance : Option String
  viewTransform : ℚ × ℚ × ℚ
  mapRotation : ℚ × ℚ

/-- Exporting from a live-view state passes only the data and selection
fields to `createFullMapSvgString`. -/
def exportSvgStringOfState (mercatorFitSize : ℚ → ℚ → List Feature → PathGen)
    (s : LiveViewState) : String :=
  createFullMapSvgString mercatorFitSize s.countries s.relationshipData
    s.selectedCountry s.alliances s.selectedAlliance

/-! ## Concrete fixtures used by witness instantiations -/

/-- A concrete centroid function used to instantiate the arc-selector
theorem. -/
def c3Centroid : Feature → ℚ × ℚ := fun _ => (1, 2)

/-- A concrete selected feature (`USA`). -/
def c3Usa : Feature := ⟨none, some ⟨some "United States of America", some "USA", none, none⟩⟩

/-- A concrete partner feature (`GBR`). -/
def c3Gbr : Feature := ⟨none, some ⟨some "United Kingdom", some "GBR", none, none⟩⟩

/-- A country lookup containing only `GBR` (so `RUS` must be silently
skipped). -/
def c3Map : List (String × Feature) := [("GBR", c3Gbr)]

/-- Concrete relations of the selected country. -/
def c3Relations : List (String × ℚ) := [("GBR", 9), ("RUS", -8)]

/-- The single descriptor the arc computation produces on the concrete
fixture. -/
def c3Arc : ArcDataItem :=
  { source := (1, 2), target := (1, 2), score := 9, key := "USA-GBR" }

/-- A trivial stand-in for the external d3 Mercator fit, used only to
instantiate the export-independence theorem at a concrete input. -/
def c8FitSize : ℚ → ℚ → List Feature → PathGen :=
  fun _ _ _ => ⟨fun _ => "", fun _ => (0, 0)⟩

/-- A concrete live-view state zoomed in under the flat projection. -/
def c8StateZoomed : LiveViewState :=
  { countries := [⟨none, some ⟨some "Germany", some "DEU", none, none⟩⟩]
    relationshipData := [("DEU", ⟨"Germany", [("FRA", 5)]⟩)]
    alliances := [("NATO", ["DEU", "FRA"])]
    selectedCountry := none
    selectedAlliance := some "NATO"
    viewTransform := (8, 120, -45)
    mapRotation := (20, -20) }

/-- The same data and selection with an identity transform but a rotated
globe. -/
def c8StateRotated : LiveViewState :=
  { countries := [⟨none, some ⟨some "Germany", some "DEU", none, none⟩⟩]
    relationshipData := [("DEU", ⟨"Germany", [("FRA", 5)]⟩)]
    alliances := [("NATO", ["DEU", "FRA"])]
    selectedCountry := none
    selectedAlliance := some "NATO"
    viewTransform := (1, 0, 0)
    mapRotation := (77, 33) }

/-! ## Theorems -/

/-- The clamp fixes every value already inside `[-10, 10]`. -/
theorem clampScore_of_mem {x : ℚ} (h1 : -10 ≤ x) (h2 : x ≤ 10) :
    clampScore x = x := by
  unfold clampScore
  rw [min_eq_right h2, max_eq_right h1]

/-- The clamp lands inside `[-10, 10]`. -/
theorem clampScore_mem (s : ℚ) : -10 ≤ clampScore s ∧ clampScore s ≤ 10 := by
  refine ⟨le_max_left _ _, max_le (by norm_num) (min_le_left _ _)⟩

/-- C6: the relationship color scale is a clamped piecewise-linear map
over the control points `[-10, 0, 10]`: clamping an input before
applying the scale never changes the result, and the three control
points map to the hostile endpoint, the neutral color and the ally
endpoint respectively. -/
theorem colorScale_clamped_with_control_points :
    (∀ s : ℚ, ColorScale (clampScore s) = ColorScale s) ∧
    ColorScale (-10) = hostileEndpoint ∧
    ColorScale 0 = neutralMiddle ∧
    ColorScale 10 = allyEndpoint := by
  refine ⟨fun s => ?_, ?_, ?_, ?_⟩
  · unfold ColorScale
    rw [clampScore_of_mem (clampScore_mem s).1 (clampScore_mem s).2]
  · norm_num [ColorScale, clampScore, lerpRgb, hostileEndpoint, neutralMiddle]
  · norm_num [ColorScale, clampScore, lerpRgb, hostileEndpoint, neutralMiddle]
  · norm_num [ColorScale, clampScore, lerpRgb, neutralMiddle, allyEndpoint]

/-- C7: mainland France (`name: "France", iso_a3: "FRA"`) resolves to
`"FRA"`; a French overseas feature with the same `iso_a3` but another
name resolves to `"FRA-"` plus the upper-cased, whitespace-stripped
name, and no synthesized territory code can ever equal `"FRA"`. -/
theorem fra_territory_resolution :
    getCountryCode (some ⟨none, some ⟨some "France", some "FRA", none, none⟩⟩)
      = some "FRA" ∧
    getCountryCode (some ⟨none, some ⟨some "French Guiana", some "FRA", none, none⟩⟩)
      = some "FRA-FRENCHGUIANA" ∧
    ∀ territoryName : String,
      jsToUpperCase ("FRA-" ++ stripWhitespace territoryName) ≠ "FRA" := by
  refine ⟨by decide, by decide, fun territoryName h => ?_⟩
  have hlen : (jsToUpperCase ("FRA-" ++ stripWhitespace territoryName)).length
      = 4 + (stripWhitespace territoryName).length := by
    show (("FRA-" ++ stripWhitespace territoryName).data.map Char.toUpper).length
        = 4 + (stripWhitespace territoryName).length
    rw [List.length_map]
    have := String.length_append "FRA-" (stripWhitespace territoryName)
    exact this
  rw [h] at hlen
  rw [show ("FRA" : String).length = 3 from rfl] at hlen
  omega

/-- C10: an arc with score `s` is stroked `#00FFFF` exactly when
`s > 0` and `#FF288C` when `s < 0`; its width is `1.5 + |s| / 10`,
hence inside `[1.5, 2.5]` for scores in `[-10, 10]`; and the live and
export renderers use the very same constants. -/
theorem arc_color_and_width_encoding :
    ∀ s : ℚ,
      (arcStroke s = "#00FFFF" ↔ 0 < s) ∧
      (s < 0 → arcStroke s = "#FF288C") ∧
      arcStrokeWidth s = 3 / 2 + |s| / 10 ∧
      (-10 ≤ s → s ≤ 10 →
        3 / 2 ≤ arcStrokeWidth s ∧ arcStrokeWidth s ≤ 5 / 2) ∧
      arcStroke s = exportArcStroke s ∧
      arcStrokeWidth s = exportArcStrokeWidth s := by
  intro s
  refine ⟨?_, ?_, rfl, ?_, rfl, rfl⟩
  · unfold arcStroke
    split_ifs with h
    · simpa using h
    · constructor
      · intro hc
        exact absurd hc (by decide)
      · intro hc
        exact absurd hc h
  · intro hneg
    unfold arcStroke
    rw [if_neg (by linarith)]
  · intro h1 h2
    have habs : |s| ≤ 10 := abs_le.mpr ⟨h1, h2⟩
    have habs0 : 0 ≤ |s| := abs_nonneg s
    unfold arcStrokeWidth
    constructor <;> linarith

/-- Witness for the arc-encoding theorem at concrete scores `4` and
`-7`. -/
theorem arc_color_and_width_encoding_witness :
    arcStroke 4 = "#00FFFF" ∧ arcStroke (-7) = "#FF288C" ∧
    3 / 2 ≤ arcStrokeWidth 4 ∧ arcStrokeWidth 4 ≤ 5 / 2 :=
  ⟨(arc_color_and_width_encoding 4).1.mpr (by norm_num),
   (arc_color_and_width_encoding (-7)).2.1 (by norm_num),
   ((arc_color_and_width_encoding 4).2.2.2.1 (by norm_num) (by norm_num)).1,
   ((arc_color_and_width_encoding 4).2.2.2.1 (by norm_num) (by norm_num)).2⟩

/-- C1 counterexample: on a feature matching no priority rule (nothing
selected), the live renderer strokes `#1a202c` while the export renderer
strokes `#000`, so the two render paths do not compute identical stroke
values. -/
theorem live_export_stroke_differ_on_default :
    liveStroke none none ⟨none, some ⟨some "Germany", some "DEU", none, none⟩⟩ ≠
      exportStroke none none ⟨none, some ⟨some "Germany", some "DEU", none, none⟩⟩ := by
  decide

/-- C1 (amended): for every feature and identical inputs, the fills and
stroke-widths of the live renderer and the export renderer are identical
(the same priority rule fires with the same values), and the strokes are
identical whenever the selected-country or the alliance-member rule
fires; in the remaining default case the live stroke is `#1a202c` while
the export stroke is the intentionally darker `#000`. -/
theorem live_export_encoders_agree_except_default_stroke :
    ∀ (rd : RelationshipData) (selectedId : Option String)
      (allianceMembers : Option (List String)) (d : Feature),
      liveFill rd selectedId allianceMembers d
        = exportFill rd selectedId allianceMembers d ∧
      liveStrokeWidth selectedId allianceMembers d
        = exportStrokeWidth selectedId allianceMembers d ∧
      (liveStroke selectedId allianceMembers d
          = exportStroke selectedId allianceMembers d ∨
        (liveStroke selectedId allianceMembers d = Color.hex "#1a202c" ∧
         exportStroke selectedId allianceMembers d = Color.hex "#000")) := by
  intro rd selectedId allianceMembers d
  refine ⟨rfl, rfl, ?_⟩
  simp only [liveStroke, exportStroke]
  split_ifs with h1 h2
  · exact Or.inl rfl
  · exact Or.inl rfl
  · exact Or.inr ⟨rfl, rfl⟩

/-- C2 counterexample: with the alliance `"NATO"` selected, dispatching
`selectCountry(null)` (the background-click deselect) leaves the
alliance selected, so selecting `null` does not clear both selections. -/
theorem selecting_null_country_keeps_alliance :
    ([UIAction.selectAlliance (some "NATO"), UIAction.selectCountry none].foldl
        uiReducer uiInitialState).selectedCountry = none ∧
    ([UIAction.selectAlliance (some "NATO"), UIAction.selectCountry none].foldl
        uiReducer uiInitialState).selectedAlliance = some "NATO" := by
  exact ⟨rfl, rfl⟩

/-- Every reducer action preserves the mutual-exclusion invariant. -/
theorem uiReducer_preserves_mutex (s : UIState) (a : UIAction)
    (h : selectionMutex s) : selectionMutex (uiReducer s a) := by
  cases a with
  | selectCountry p =>
    cases p with
    | some c => exact Or.inr rfl
    | none => exact Or.inl rfl
  | selectAlliance p =>
    cases p with
    | some al => exact Or.inl rfl
    | none => exact Or.inr rfl
  | clearSelections => exact Or.inl rfl
  | setProjection p => exact h
  | toggleMobileMenu => exact h
  | setMobileMenuOpen p => exact h
  | resetUIState => exact Or.inl rfl
  | setSearchTerm p => exact h
  | toggleSidebar => exact h
  | setMapRotation p => exact h

/-- The invariant is preserved along any action sequence. -/
theorem foldl_uiReducer_mutex (acts : List UIAction) :
    ∀ s : UIState, selectionMutex s →
      selectionMutex (acts.foldl uiReducer s) := by
  induction acts with
  | nil => exact fun s h => h
  | cons a as ih => exact fun s h => ih _ (uiReducer_preserves_mutex s a h)

/-- C2 (amended): along every action sequence from the initial state, at
most one of `selectedCountry` / `selectedAlliance` is non-null;
selecting a non-null country clears any alliance selection and vice
versa; selecting `null` clears only the corresponding selection and
leaves the other untouched, while `clearSelections` clears both. -/
theorem selection_mutual_exclusion :
    (∀ acts : List UIAction,
      selectionMutex (acts.foldl uiReducer uiInitialState)) ∧
    (∀ (s : UIState) (c : Feature),
      (uiReducer s (UIAction.selectCountry (some c))).selectedCountry = some c ∧
      (uiReducer s (UIAction.selectCountry (some c))).selectedAlliance = none) ∧
    (∀ (s : UIState) (a : String),
      (uiReducer s (UIAction.selectAlliance (some a))).selectedAlliance = some a ∧
      (uiReducer s (UIAction.selectAlliance (some a))).selectedCountry = none) ∧
    (∀ s : UIState,
      (uiReducer s (UIAction.selectCountry none)).selectedCountry = none ∧
      (uiReducer s (UIAction.selectCountry none)).selectedAlliance
        = s.selectedAlliance ∧
      (uiReducer s (UIAction.selectAlliance none)).selectedAlliance = none ∧
      (uiReducer s (UIAction.selectAlliance none)).selectedCountry
        = s.selectedCountry ∧
      (uiReducer s UIAction.clearSelections).selectedCountry = none ∧
      (uiReducer s UIAction.clearSelections).selectedAlliance = none) := by
  refine ⟨fun acts => foldl_uiReducer_mutex acts uiInitialState (Or.inl rfl),
    fun s c => ⟨rfl, rfl⟩, fun s a => ⟨rfl, rfl⟩,
    fun s => ⟨rfl, rfl, rfl, rfl, rfl, rfl⟩⟩

/-- C3: for every selection and relationship map, the arc computation
returns at most `10` descriptors — drawn from the first `5`
positive-score and the first `5` negative-score entries of the
`|score|`-descending order — and every returned descriptor's partner
resolves through the country lookup (its target is that partner's
centroid and its key is `selectedId-partnerCode`); partners missing from
the lookup are silently dropped. -/
theorem arcSelector_bounded_and_partners_present :
    ∀ (pathCentroid : Feature → ℚ × ℚ) (countryMap : List (String × Feature))
      (selectedCountry : Feature) (selectedId : String)
      (relations : List (String × ℚ)),
      (computeArcData pathCentroid countryMap selectedCountry selectedId
          relations).length ≤ 10 ∧
      ∀ a ∈ computeArcData pathCentroid countryMap selectedCountry selectedId
          relations,
        ∃ (targetCode : String) (targetFeature : Feature),
          countryMap.lookup targetCode = some targetFeature ∧
          a.target = pathCentroid targetFeature ∧
          a.key = selectedId ++ "-" ++ targetCode ∧
          a.score ≠ 0 := by
  intro pathCentroid countryMap selectedCountry selectedId relations
  constructor
  · unfold computeArcData
    refine le_trans (List.length_filterMap_le _ _) ?_
    rw [List.length_append]
    have h1 := List.length_take 5
      ((sortByAbsDesc relations).filter (fun e => e.2 > 0))
    have h2 := List.length_take 5
      ((sortByAbsDesc relations).filter (fun e => e.2 < 0))
    omega
  · intro a ha
    unfold computeArcData at ha
    rw [List.mem_filterMap] at ha
    obtain ⟨e, hmem, hf⟩ := ha
    rw [Option.map_eq_some'] at hf
    obtain ⟨tf, hlk, hmk⟩ := hf
    refine ⟨e.1, tf, hlk, ?_, ?_, ?_⟩
    · rw [← hmk]
    · rw [← hmk]
    · rw [← hmk]
      rw [List.mem_append] at hmem
      rcases hmem with hpos | hneg
      · have := (List.mem_filter.mp (List.mem_of_mem_take hpos)).2
        have hgt : e.2 > 0 := by simpa using this
        exact ne_of_gt hgt
      · have := (List.mem_filter.mp (List.mem_of_mem_take hneg)).2
        have hlt : e.2 < 0 := by simpa using this
        exact ne_of_lt hlt

/-- Witness for the arc-selector theorem on the concrete fixture: the
bound holds and the produced `USA-GBR` descriptor resolves through the
lookup. -/
theorem arcSelector_bounded_and_partners_present_witness :
    (computeArcData c3Centroid c3Map c3Usa "USA" c3Relations).length ≤ 10 ∧
    (∃ (targetCode : String) (targetFeature : Feature),
      c3Map.lookup targetCode = some targetFeature ∧
      c3Arc.target = c3Centroid targetFeature ∧
      c3Arc.key = "USA" ++ "-" ++ targetCode ∧
      c3Arc.score ≠ 0) :=
  ⟨(arcSelector_bounded_and_partners_present c3Centroid c3Map c3Usa "USA"
      c3Relations).1,
   (arcSelector_bounded_and_partners_present c3Centroid c3Map c3Usa "USA"
      c3Relations).2 c3Arc (by decide)⟩

/-- One drag step always leaves the latitude inside `[-90, 90]`,
whatever the incoming rotation and deltas are. -/
theorem dragStep_lat_mem (rot delta : ℚ × ℚ) :
    -90 ≤ (dragStep rot delta).2 ∧ (dragStep rot delta).2 ≤ 90 :=
  ⟨le_max_left _ _, max_le (by norm_num) (min_le_left _ _)⟩

/-- Folding drag events preserves the latitude bounds. -/
theorem applyDrags_aux_lat (deltas : List (ℚ × ℚ)) :
    ∀ s : UIState,
      -90 ≤ s.mapRotation.2 → s.mapRotation.2 ≤ 90 →
      -90 ≤ (deltas.foldl
        (fun s d => uiReducer s (UIAction.setMapRotation (dragStep s.mapRotation d)))
        s).mapRotation.2 ∧
      (deltas.foldl
        (fun s d => uiReducer s (UIAction.setMapRotation (dragStep s.mapRotation d)))
        s).mapRotation.2 ≤ 90 := by
  induction deltas with
  | nil => exact fun s h1 h2 => ⟨h1, h2⟩
  | cons d ds ih =>
    intro s h1 h2
    exact ih _ (dragStep_lat_mem s.mapRotation d).1 (dragStep_lat_mem s.mapRotation d).2

/-- C4: starting from the initial rotation `[20, -20]`, after any finite
sequence of drag events (sensitivity `0.5`) the latitude component of
the rotation stays inside `[-90, 90]`, while the longitude component
exceeds any given bound for a suitable drag sequence. -/
theorem globe_latitude_always_clamped :
    (∀ deltas : List (ℚ × ℚ),
      -90 ≤ (applyDrags deltas).mapRotation.2 ∧
      (applyDrags deltas).mapRotation.2 ≤ 90) ∧
    (∀ bound : ℚ, ∃ deltas : List (ℚ × ℚ),
      bound < (applyDrags deltas).mapRotation.1) := by
  constructor
  · intro deltas
    exact applyDrags_aux_lat deltas uiInitialState (by norm_num [uiInitialState])
      (by norm_num [uiInitialState])
  · intro bound
    refine ⟨[(2 * bound, 0)], ?_⟩
    show bound < (uiReducer uiInitialState
      (UIAction.setMapRotation (dragStep uiInitialState.mapRotation (2 * bound, 0)))).mapRotation.1
    simp only [uiReducer, dragStep, uiInitialState, dragSensitivity]
    ring_nf
    linarith

/-- C5 counterexample: the earlier `getCountryCode` version throws a
`TypeError` on the malformed properties bag `{ iso_a3: "FRA" }` with no
`name`, because its French-territory branch dereferences `props.name`
without a guard — so `getCountryCode` is not total over malformed input
as stated. -/
theorem getCountryCode2_throws_on_unnamed_fra :
    getCountryCode2JS (some ⟨none, some ⟨none, some "FRA", none, none⟩⟩)
      = Except.error "TypeError" := by
  rfl

/-- C5 (amended): the current `getCountryCode` version never throws on
any input — null, undefined, a feature without properties, or any
properties bag — and returns a string code or null (hence calling it
twice on an unchanged feature trivially yields the same result); the
earlier version throws exactly on a properties bag carrying
`iso_a3 = "FRA"` without a `name`, and never throws on every other
input. -/
theorem getCountryCode_total_and_v2_partial :
    (∀ f : Option Feature, getCountryCodeJS f = Except.ok (getCountryCode f)) ∧
    (∀ f : Option Feature, (getCountryCode2JS f).isOk = !fraWithoutName f) := by
  constructor
  · intro f
    rcases f with _ | ⟨fid, props⟩
    · rfl
    rcases props with _ | p
    · rfl
    simp only [getCountryCode, getCountryCodeJS]
    split_ifs <;> rfl
  · intro f
    rcases f with _ | ⟨fid, props⟩
    · rfl
    rcases props with _ | p
    · rfl
    obtain ⟨pname, pisoa3, padm, pn3⟩ := p
    cases pname with
    | some n =>
      have hne : ((some n : Option String) == none) = false := rfl
      simp only [getCountryCode2JS, fraWithoutName, hne, Bool.and_false,
        Bool.not_false]
      split_ifs <;> rfl
    | none =>
      cases pisoa3 with
      | none =>
        simp only [getCountryCode2JS, fraWithoutName]
        rw [if_neg (by decide), if_neg (by decide), if_neg (by decide),
          if_neg (by decide), if_neg (by decide)]
        split_ifs <;> rfl
      | some a3 =>
        by_cases ha3 : a3 = "FRA"
        · subst ha3
          simp only [getCountryCode2JS, fraWithoutName]
          rw [if_neg (by decide), if_neg (by decide), if_neg (by decide),
            if_neg (by decide), if_pos (by decide), if_pos (by decide)]
          rfl
        · simp only [getCountryCode2JS, fraWithoutName]
          rw [if_neg (by decide), if_neg (by decide), if_neg (by decide),
            if_neg (by decide)]
          have hne2 : ((some a3 : Option String) == some "FRA") = false := by
            simp [ha3]
          rw [hne2]
          by_cases hlen : strTruthyLen3 (some a3) = true
          · rw [if_pos hlen, if_neg (fun hc => ha3 (Option.some.inj hc.1))]
            rfl
          · rw [if_neg hlen]
            split_ifs <;> rfl

/-- C8: the export builder reads none of the live view's interaction
state: any two live-view states with the same countries, relationship
data, alliances and selection — however much their pan/zoom transform or
globe rotation differ — produce the very same exported SVG string, and
the export scene always uses the fixed `1800 × 1000` canvas (with the
Mercator fit of the whole feature collection to that canvas). -/
theorem export_independent_of_transform_rotation :
    ∀ (mercatorFitSize : ℚ → ℚ → List Feature → PathGen)
      (s1 s2 : LiveViewState),
      s1.countries = s2.countries →
      s1.relationshipData = s2.relationshipData →
      s1.alliances = s2.alliances →
      s1.selectedCountry = s2.selectedCountry →
      s1.selectedAlliance = s2.selectedAlliance →
      exportSvgStringOfState mercatorFitSize s1
        = exportSvgStringOfState mercatorFitSize s2 ∧
      (createFullMapSvg mercatorFitSize s1.countries s1.relationshipData
          s1.selectedCountry s1.alliances s1.selectedAlliance).width = 1800 ∧
      (createFullMapSvg mercatorFitSize s1.countries s1.relationshipData
          s1.selectedCountry s1.alliances s1.selectedAlliance).height = 1000 := by
  intro fit s1 s2 h1 h2 h3 h4 h5
  refine ⟨?_, rfl, rfl⟩
  unfold exportSvgStringOfState
  rw [h1, h2, h3, h4, h5]

/-- Witness for the export-independence theorem at two concrete states
differing only in transform and rotation. -/
theorem export_independent_of_transform_rotation_witness :
    exportSvgStringOfState c8FitSize c8StateZoomed
      = exportSvgStringOfState c8FitSize c8StateRotated :=
  (export_independent_of_transform_rotation c8FitSize c8StateZoomed
    c8StateRotated rfl rfl rfl rfl rfl).1

/-- C9: a degenerate viewport (with its nonnegative width or height
equal to zero) yields a null projection and hence a null path
generator; the path-creation effect then produces nothing and the arc
effect renders no arcs — both no-op instead of failing. -/
theorem degenerate_viewport_null_projection :
    ∀ (width height : ℚ) (projectionName : ProjectionType)
      (rotation : ℚ × ℚ) (countries : List Feature)
      (geoPath : Projection → PathGen)
      (countryMap : List (String × Feature)) (rd : RelationshipData)
      (selectedCountry : Option Feature),
      0 ≤ width → 0 ≤ height → (width ≤ 0 ∨ height ≤ 0) →
      buildProjection width height projectionName rotation countries = none ∧
      buildPathGenerator geoPath
        (buildProjection width height projectionName rotation countries) = none ∧
      pathCreationEffect
        (buildPathGenerator geoPath
          (buildProjection width height projectionName rotation countries))
        countries = none ∧
      arcEffect
        (buildPathGenerator geoPath
          (buildProjection width height projectionName rotation countries))
        countryMap rd selectedCountry = [] := by
  intro w h pn rot cs gp cm rdata sc hw hh hdeg
  have hz : w = 0 ∨ h = 0 := by
    rcases hdeg with h1 | h1
    · exact Or.inl (le_antisymm h1 hw)
    · exact Or.inr (le_antisymm h1 hh)
  have hproj : buildProjection w h pn rot cs = none := by
    unfold buildProjection
    rw [if_pos hz]
  refine ⟨hproj, ?_, ?_, ?_⟩
  · rw [hproj]
    rfl
  · rw [hproj]
    rfl
  · rw [hproj]
    cases sc <;> rfl

/-- Witness for the degenerate-viewport theorem at a `0 × 768`
viewport. -/
theorem degenerate_viewport_null_projection_witness :
    buildProjection 0 768 ProjectionType.geoMercator (20, -20) [] = none ∧
    pathCreationEffect
      (buildPathGenerator (fun _ => ⟨fun _ => "", fun _ => (0, 0)⟩)
        (buildProjection 0 768 ProjectionType.geoMercator (20, -20) []))
      [] = none :=
  ⟨(degenerate_viewport_null_projection 0 768 ProjectionType.geoMercator
      (20, -20) [] (fun _ => ⟨fun _ => "", fun _ => (0, 0)⟩) [] [] none
      le_rfl (by norm_num) (Or.inl le_rfl)).1,
   (degenerate_viewport_null_projection 0 768 ProjectionType.geoMercator
      (20, -20) [] (fun _ => ⟨fun _ => "", fun _ => (0, 0)⟩) [] [] none
      le_rfl (by norm_num) (Or.inl le_rfl)).2.2.1⟩

end WorldTies
